import Mathlib

/-!
Shallow embedding of `app/app.py` (Flask inventory CRUD demo) together with
proofs about the properties of its connection-string builder, session scope,
connection retry loop, HTML rendering and CRUD handlers.

Conventions of the embedding:
* Python `str` is Lean `String`; the `str` methods used by the code
  (`strip`, `replace`, `in`, slicing) are re-implemented on character lists
  below so that everything evaluates inside the kernel.
* `os.environ.get(k, d)` / `dict.get(k, d)` / `request.form.get(k, d)` become
  `Option String` arguments defaulted with `Option.getD`.
* The database table is a list of rows plus the sequence counter backing the
  `SERIAL` primary key; `created_at` timestamps are opaque strings supplied by
  the caller (the database clock).
* Exceptions become `Except` values; `time.sleep` calls are logged as a list of
  the slept durations.
-/

namespace HeteroDemo

/-! ## Python string primitives -/

/-- `str.strip()`: remove leading and trailing whitespace. -/
def pyStrip (s : String) : String :=
  String.mk (((s.toList.dropWhile Char.isWhitespace).reverse.dropWhile
    Char.isWhitespace).reverse)

/-- `str.replace(old, new)` on character lists for nonempty `old`:
left-to-right, non-overlapping.  `fuel` bounds the recursion; `fuel = length`
suffices since each step consumes at least one character. -/
def replaceChars (old new : List Char) : Nat → List Char → List Char
  | 0, l => l
  | _ + 1, [] => []
  | fuel + 1, c :: cs =>
    if old.isPrefixOf (c :: cs) = true then
      new ++ replaceChars old new fuel ((c :: cs).drop old.length)
    else c :: replaceChars old new fuel cs

/-- `s.replace(old, new)` for nonempty `old`. -/
def pyReplace (s old new : String) : String :=
  String.mk (replaceChars old.toList new.toList s.toList.length s.toList)

/-- Does `pat` start `s`? -/
def startsWithChars : List Char → List Char → Bool
  | _, [] => true
  | [], _ :: _ => false
  | c :: cs, p :: ps => c == p && startsWithChars cs ps

/-- Does `pat` occur in `s`? -/
def occursIn (pat : List Char) : List Char → Bool
  | [] => pat.isEmpty
  | c :: cs => startsWithChars (c :: cs) pat || occursIn pat cs

/-- Substring containment (`pat in s`). -/
def containsSub (s pat : String) : Bool := occursIn pat.toList s.toList

/-- `html.escape(s)` (with `quote=True`, the default): escape `&`, `<`, `>`,
`"` and `'`.  Python performs the five `str.replace` calls with `&` first,
which is equivalent to this character-wise map. -/
def htmlEscapeChar (c : Char) : String :=
  if c = '&' then "&amp;"
  else if c = '<' then "&lt;"
  else if c = '>' then "&gt;"
  else if c = '"' then "&quot;"
  else if c = '\x27' then "&#x27;"
  else String.singleton c

/-- `html.escape` on a whole string. -/
def htmlEscape (s : String) : String :=
  String.join (s.toList.map htmlEscapeChar)

/-- `_esc(value)` from `app.py`: HTML-escape a value for safe rendering;
`None` renders as the empty string. -/
def _esc : Option String → String
  | some v => htmlEscape v
  | none => ""

/-! ## Flash message handling in `index` (`GET /`) -/

/-- The flash-severity computation of `index`:
`flash_type = request.args.get("type", "success")` followed by the whitelist
check `if flash_type not in ("success", "error"): flash_type = "success"`. -/
def flash_type_of (query_type : Option String) : String :=
  let flash_type := query_type.getD "success"
  if flash_type = "success" ∨ flash_type = "error" then flash_type else "success"

/-- The flash block of `index`:
`flash_html = f'<div class="flash {flash_type}">{flash_msg}</div>' if flash_msg else ""`
with `flash_msg = _esc(request.args.get("msg", ""))`. -/
def flash_html_of (query_msg query_type : Option String) : String :=
  let flash_msg := _esc (some (query_msg.getD ""))
  let flash_type := flash_type_of query_type
  if flash_msg = "" then ""
  else s!"<div class=\"flash {flash_type}\">{flash_msg}</div>"

/-! ## Session scope `get_db` -/

/-- Operations performed on the acquired connection, in order. -/
inductive ConnOp where
  | commit
  | rollback
  | close
deriving DecidableEq, BEq

/-- The `get_db` context manager, after a connection has been acquired:
run the body (`yield conn`), then `conn.commit()`; on any exception from the
body or the commit, `conn.rollback()` and re-raise; `conn.close()` in the
`finally` block.  `body` is the outcome of the unit of work and
`commitResult` the outcome of `conn.commit()`; the returned list is the
ordered trace of operations performed on the connection. -/
def get_db {E A : Type} (body : Except E A) (commitResult : Except E Unit) :
    Except E A × List ConnOp :=
  match body with
  | .ok a =>
    match commitResult with
    | .ok _ => (.ok a, [.commit, .close])
    | .error e => (.error e, [.commit, .rollback, .close])
  | .error e => (.error e, [.rollback, .close])

/-! ## Connection retry `_connect_with_retry` -/

/-- The exception taxonomy relevant to `_connect_with_retry`: the loop only
ever raises `psycopg2.OperationalError` values (the caught exception type and
the initial default), while the specification speaks of a `ConnectionError`
wrapper. -/
inductive PyExc where
  | operationalError (msg : String)
  | connectionError (msg : String)
deriving DecidableEq

/-- Whether an exception is a `ConnectionError`. -/
def PyExc.isConnectionError : PyExc → Bool
  | .connectionError _ => true
  | _ => false

/-- The `for attempt in range(retries)` loop of `_connect_with_retry`.
`connect attempt` is the outcome of `psycopg2.connect(DATABASE_URL)` on that
attempt (errors are `OperationalError` messages), `remaining` the number of
loop iterations left, `last_exc` the current `last_exc` value.  The returned
list records the durations of the `time.sleep(delay)` calls, which happen
only while `attempt < retries - 1`; falling off the loop raises `last_exc`. -/
def connectLoop {C : Type} (connect : Nat → Except String C) (delay : Nat) :
    Nat → Nat → String → Except PyExc C × List Nat
  | _, 0, last_exc => (.error (.operationalError last_exc), [])
  | attempt, remaining + 1, _ =>
    match connect attempt with
    | .ok conn => (.ok conn, [])
    | .error exc =>
      if remaining = 0 then (.error (.operationalError exc), [])
      else
        let rest := connectLoop connect delay (attempt + 1) remaining exc
        (rest.1, delay :: rest.2)

/-- `_connect_with_retry(retries, delay)`: run the retry loop from attempt 0
with `last_exc` initialised to the default `OperationalError`. -/
def _connect_with_retry {C : Type} (connect : Nat → Except String C)
    (retries delay : Nat) : Except PyExc C × List Nat :=
  connectLoop connect delay 0 retries "Could not connect to database"

/-- A connect oracle whose every attempt fails with the same
`OperationalError`. -/
def alwaysFailConnect : Nat → Except String Nat :=
  fun _ => .error "boom"

/-! ## Database URL construction `_build_database_url` -/

/-- The characters of the literal `sslmode=` key inside the regex
`([?&])sslmode=[^&]*(&?)`. -/
def sslmodeKey : List Char := "sslmode=".toList

/-- The `[^&]*(&?)` tail of the regex: greedily consume the maximal run of
non-`&` characters, then an optional `&`; returns whether the optional `&`
was matched (`m.group(2)` nonempty) together with the remaining input. -/
def matchValue : List Char → Bool × List Char
  | [] => (false, [])
  | c :: cs => if c = '&' then (true, cs) else matchValue cs

/-- `_remove_sslmode_param(m)` from `app.py`: replacement for one regex
match, given `m.group(1)` (the `?` or `&` before the key) and whether
`m.group(2)` matched a trailing `&`. -/
def _remove_sslmode_param (pref : Char) (suffixAmp : Bool) : List Char :=
  if pref = '?' ∧ suffixAmp = true then ['?']
  else if pref = '?' ∧ suffixAmp = false then []
  else if pref = '&' ∧ suffixAmp = true then ['&']
  else []

/-- `re.sub(r'([?&])sslmode=[^&]*(&?)', _remove_sslmode_param, uri)`:
left-to-right non-overlapping scan; at each position either the pattern
matches (replace it and resume after the match) or the character is copied.
`fuel` bounds the recursion; `fuel = length` suffices because each step
consumes at least one character. -/
def subSslmode : Nat → List Char → List Char
  | 0, l => l
  | _ + 1, [] => []
  | fuel + 1, c :: cs =>
    if (c = '?' ∨ c = '&') ∧ sslmodeKey.isPrefixOf cs = true then
      let rest := matchValue (cs.drop sslmodeKey.length)
      _remove_sslmode_param c rest.1 ++ subSslmode fuel rest.2
    else c :: subSslmode fuel cs

/-- `uri.rstrip('?&')`. -/
def rstripQAmp (s : String) : String :=
  String.mk ((s.toList.reverse.dropWhile (fun c => c == '?' || c == '&')).reverse)

/-- `'?' in uri`. -/
def containsQuestion (s : String) : Bool := s.toList.contains '?'

/-- `_build_database_url()` from `app.py`: use `DATABASE_URL` when present
and nonempty, else build the URI from the `PG_*` variables with their
documented defaults; then strip `sslmode` parameters by the regex
substitution, pick the separator by whether a `?` remains, strip trailing
`?`/`&` and append `sslmode=require`. -/
def _build_database_url (database_url pg_user pg_password pg_host pg_port
    pg_dbname : Option String) : String :=
  let uri := database_url.getD ""
  let uri :=
    if uri = "" then
      let user := pg_user.getD "appuser"
      let password := pg_password.getD "changeme"
      let host := pg_host.getD "hetero-pgcluster-primary"
      let port := pg_port.getD "5432"
      let dbname := pg_dbname.getD "appdb"
      "postgresql://" ++ user ++ ":" ++ password ++ "@" ++ host ++ ":" ++ port
        ++ "/" ++ dbname
    else uri
  let uri := String.mk (subSslmode uri.toList.length uri.toList)
  let sep := if containsQuestion uri then "&" else "?"
  rstripQAmp uri ++ sep ++ "sslmode=require"

/-- Number of `sslmode` parameters of a URI: occurrences of the key
`sslmode=` immediately preceded by `?` or `&`. -/
def countSslmodeParams : List Char → Nat
  | [] => 0
  | c :: cs =>
    (if (c = '?' ∨ c = '&') ∧ sslmodeKey.isPrefixOf cs = true then 1 else 0) +
      countSslmodeParams cs

/-! ## The `items` table and its SQL operations -/

/-- A row of the `items` table.  `created_at` is the opaque timestamp the
database assigned at insertion; `description` is always a string here because
every code path inserts one (the column's SQL nullability is unused). -/
structure Item where
  id : Nat
  name : String
  description : String
  created_at : String
deriving DecidableEq

/-- The database state: the rows of `items` plus the sequence counter backing
the `SERIAL` primary key (the id the next insert will be assigned). -/
structure Db where
  nextId : Nat
  rows : List Item
deriving DecidableEq

/-- `INSERT INTO items (name, description) VALUES (%s, %s) RETURNING ...`:
the store assigns the next serial id and the current timestamp `now`, and
returns the new row. -/
def sqlInsert (db : Db) (name description now : String) : Item × Db :=
  let it : Item := ⟨db.nextId, name, description, now⟩
  (it, ⟨db.nextId + 1, db.rows ++ [it]⟩)

/-- `SELECT id, name, description, created_at FROM items WHERE id = %s` with
`fetchone`. -/
def sqlSelectById (db : Db) (item_id : Nat) : Option Item :=
  db.rows.find? (fun r => r.id == item_id)

/-- The change `UPDATE items SET name=%s, description=%s WHERE id=%s` makes
to a single row. -/
def updateRow (item_id : Nat) (name description : String) (r : Item) : Item :=
  if r.id = item_id then { r with name := name, description := description } else r

/-- The row transformation of `UPDATE items SET name=%s, description=%s
WHERE id=%s` on the whole table. -/
def updateRows (rows : List Item) (item_id : Nat) (name description : String) :
    List Item :=
  rows.map (updateRow item_id name description)

/-- `UPDATE ... WHERE id=%s RETURNING ...` with `fetchone`: all rows with the
id get the new name/description and the (post-update) matching row is
returned, `none` when no row matched. -/
def sqlUpdate (db : Db) (item_id : Nat) (name description : String) :
    Option Item × Db :=
  let rows := updateRows db.rows item_id name description
  (rows.find? (fun r => r.id == item_id), ⟨db.nextId, rows⟩)

/-- `DELETE FROM items WHERE id = %s RETURNING ...` with `fetchone`: the
matching row (if any) is returned and all rows with the id are removed. -/
def sqlDelete (db : Db) (item_id : Nat) : Option Item × Db :=
  (db.rows.find? (fun r => r.id == item_id),
    ⟨db.nextId, db.rows.filter (fun r => r.id != item_id)⟩)

/-! ## HTML table rendering `build_table` -/

/-- The static header of the items table (first element of `html_parts`). -/
def tableHeader : String := "<table>
      <tr>
        <th style=\"width:50px\">#</th>
        <th>Name</th>
        <th>Description</th>
        <th style=\"width:160px\">Created At</th>
        <th style=\"width:160px\">Actions</th>
      </tr>"

/-- One loop iteration of `build_table`: the view row followed by the hidden
edit row for one item.  `js_name`/`js_desc` are the "JS-safe single-quoted
strings for onclick": `rname.replace("'", "\\'").replace('"', '"')` — note
that the second `replace` maps `"` to itself. -/
def rowHtml (row : Item) : String :=
  let rid := toString row.id
  let rname := row.name
  let rdesc := row.description
  let ename := _esc (some rname)
  let edesc := _esc (some rdesc)
  let ets := _esc (some (String.mk (row.created_at.toList.take 19)))
  let js_name := pyReplace (pyReplace rname "\x27" "\\\x27") "\"" "\""
  let js_desc := pyReplace (pyReplace rdesc "\x27" "\\\x27") "\"" "\""
  s!"
      <tr id=\"view-{rid}\">
        <td style=\"color:#555;\">{rid}</td>
        <td><strong>{ename}</strong></td>
        <td style=\"color:#aaa;\">{edesc}</td>
        <td class=\"ts\">{ets}</td>
        <td>
          <div class=\"action-btns\">
            <button type=\"button\" class=\"btn btn-warning\"
              onclick=\"showEditRow({rid}, \x27{js_name}\x27, \x27{js_desc}\x27)\">&#9998; Edit</button>
            <form method=\"POST\" action=\"/ui/items/{rid}/delete\" style=\"display:inline;\">
              <button type=\"submit\" class=\"btn btn-danger\"
                onclick=\"return confirm(\x27Delete item {rid}?\x27)\">&#128465;</button>
            </form>
          </div>
        </td>
      </tr>" ++
  s!"
      <tr id=\"edit-{rid}\" class=\"edit-row\" style=\"display:none;\">
        <td style=\"color:#555;\">{rid}</td>
        <td colspan=\"2\">
          <form method=\"POST\" action=\"/ui/items/{rid}/edit\" id=\"edit-form-{rid}\">
            <div class=\"form-row\">
              <div class=\"form-group\">
                <input type=\"text\" id=\"edit-name-{rid}\" name=\"name\"
                  value=\"{ename}\" required maxlength=\"255\" placeholder=\"Item name\">
              </div>
              <div class=\"form-group\" style=\"flex:2;\">
                <input type=\"text\" id=\"edit-desc-{rid}\" name=\"description\"
                  value=\"{edesc}\" maxlength=\"1000\" placeholder=\"Description\">
              </div>
            </div>
          </form>
        </td>
        <td class=\"ts\">{ets}</td>
        <td>
          <div class=\"action-btns\">
            <button type=\"submit\" form=\"edit-form-{rid}\" class=\"btn btn-save\">&#10003; Save</button>
            <button type=\"button\" class=\"btn btn-cancel\" onclick=\"cancelEdit({rid})\">&#10005;</button>
          </div>
        </td>
      </tr>"

/-- `build_table(rows)`: the empty-state div, or header, the two rows per
item, and the closing tag, joined. -/
def build_table (rows : List Item) : String :=
  if rows.isEmpty then
    "<div class=\"empty\">No items yet. Add your first item above!</div>"
  else
    tableHeader ++ String.join (rows.map rowHtml) ++ "</table>"

/-- A stored row whose name contains a double quote. -/
def xssItem : Item := ⟨7, "a\" onmouseover=\"alert(1)", "d", "2024-01-01 00:00:00"⟩

/-! ## HTTP handlers -/

/-- Outcome of a UI form handler: a redirect to `/` carrying a flash message
with severity `success` or `error`. -/
inductive UiResp where
  | redirectSuccess (msg : String)
  | redirectError (msg : String)
deriving DecidableEq

/-- Outcome of a JSON API handler: an item payload, a bare message payload,
or an error payload, each with its HTTP status. -/
inductive ApiResp where
  | itemResp (status : Nat) (it : Item)
  | messageResp (status : Nat) (msg : String)
  | errorResp (status : Nat) (msg : String)
deriving DecidableEq

/-- A form submission / parsed JSON object, restricted to the two keys the
handlers read.  A missing key is `none`. -/
structure FormData where
  name : Option String
  description : Option String
deriving DecidableEq

/-- Python truthiness of the parsed JSON dict (`if not data`): with only the
two keys the handlers read, the dict is falsy exactly when it is `{}`. -/
def FormData.isFalsy (d : FormData) : Bool :=
  d.name.isNone && d.description.isNone

/-- Flash text `f"Item '{name}' saved to PostgreSQL (id={item_id}) ✓"`. -/
def msgUiCreated (name : String) (item_id : Nat) : String :=
  s!"Item \x27{name}\x27 saved to PostgreSQL (id={item_id}) ✓"

/-- Flash text `f"Item {item_id} updated ✓"`. -/
def msgUiUpdated (item_id : Nat) : String := s!"Item {item_id} updated ✓"

/-- Flash text `f"Item {item_id} not found."`. -/
def msgUiNotFound (item_id : Nat) : String := s!"Item {item_id} not found."

/-- Flash text `f"Item '{name}' deleted ✓"`. -/
def msgUiDeleted (name : String) : String := s!"Item \x27{name}\x27 deleted ✓"

/-- API error text `f"Item {item_id} not found"`. -/
def msgApiNotFound (item_id : Nat) : String := s!"Item {item_id} not found"

/-- API message text `f"Item {item_id} deleted"`. -/
def msgApiDeleted (item_id : Nat) : String := s!"Item {item_id} deleted"

/-- `POST /ui/items` (`ui_create_item`): trim the form fields, reject a blank
name before touching the store, otherwise insert and redirect with a success
flash. -/
def ui_create_item (db : Db) (form : FormData) (now : String) : UiResp × Db :=
  let name := pyStrip (form.name.getD "")
  let description := pyStrip (form.description.getD "")
  if name = "" then (.redirectError "Item name is required.", db)
  else
    let res := sqlInsert db name description now
    (.redirectSuccess (msgUiCreated name res.1.id), res.2)

/-- `POST /ui/items/<id>/edit` (`ui_edit_item`): trim the form fields, reject
a blank name before touching the store, otherwise update and report found /
not-found through the flash. -/
def ui_edit_item (db : Db) (item_id : Nat) (form : FormData) : UiResp × Db :=
  let name := pyStrip (form.name.getD "")
  let description := pyStrip (form.description.getD "")
  if name = "" then (.redirectError "Item name cannot be empty.", db)
  else
    let res := sqlUpdate db item_id name description
    match res.1 with
    | some _ => (.redirectSuccess (msgUiUpdated item_id), res.2)
    | none => (.redirectError (msgUiNotFound item_id), res.2)

/-- `POST /ui/items/<id>/delete` (`ui_delete_item`): delete by id; flash the
deleted row's name on success, an error otherwise. -/
def ui_delete_item (db : Db) (item_id : Nat) : UiResp × Db :=
  let res := sqlDelete db item_id
  match res.1 with
  | some it => (.redirectSuccess (msgUiDeleted it.name), res.2)
  | none => (.redirectError (msgUiNotFound item_id), res.2)

/-- `POST /items` (`create_item_api`): 400 when there is no JSON body, the
body is falsy, or `name` is missing (`if not data or "name" not in data`);
400 when the trimmed name is blank; otherwise insert and return 201 with the
new row. -/
def create_item_api (db : Db) (body : Option FormData) (now : String) :
    ApiResp × Db :=
  match body with
  | none => (.errorResp 400 "Field \x27name\x27 is required", db)
  | some data =>
    if data.isFalsy || data.name.isNone then
      (.errorResp 400 "Field \x27name\x27 is required", db)
    else
      let name := pyStrip (data.name.getD "")
      let description := pyStrip (data.description.getD "")
      if name = "" then (.errorResp 400 "Field \x27name\x27 must not be blank", db)
      else
        let res := sqlInsert db name description now
        (.itemResp 201 res.1, res.2)

/-- `GET /items/<id>` (`get_item_api`): 200 with the row, or 404. -/
def get_item_api (db : Db) (item_id : Nat) : ApiResp × Db :=
  match sqlSelectById db item_id with
  | some it => (.itemResp 200 it, db)
  | none => (.errorResp 404 (msgApiNotFound item_id), db)

/-- `PUT /items/<id>` (`update_item_api`): 400 when there is no JSON body or
it is falsy (`if not data`); `name`/`description` default to `""` and are
trimmed; 400 when the trimmed name is blank; otherwise update and report 200
with the updated row or 404. -/
def update_item_api (db : Db) (item_id : Nat) (body : Option FormData) :
    ApiResp × Db :=
  match body with
  | none => (.errorResp 400 "JSON body required", db)
  | some data =>
    if data.isFalsy then (.errorResp 400 "JSON body required", db)
    else
      let name := pyStrip (data.name.getD "")
      let description := pyStrip (data.description.getD "")
      if name = "" then (.errorResp 400 "Field \x27name\x27 must not be blank", db)
      else
        let res := sqlUpdate db item_id name description
        match res.1 with
        | some it => (.itemResp 200 it, res.2)
        | none => (.errorResp 404 (msgApiNotFound item_id), res.2)

/-- `DELETE /items/<id>` (`delete_item_api`): delete by id; 200 with a
confirmation message naming the id, or 404. -/
def delete_item_api (db : Db) (item_id : Nat) : ApiResp × Db :=
  let res := sqlDelete db item_id
  match res.1 with
  | some _ => (.messageResp 200 (msgApiDeleted item_id), res.2)
  | none => (.errorResp 404 (msgApiNotFound item_id), res.2)

/-! ## Lemmas about the retry loop -/

/-- One-step unfolding: a successful attempt returns immediately. -/
theorem connectLoop_step_ok {C : Type} (connect : Nat → Except String C)
    (delay a m : Nat) (last_exc : String) (conn : C)
    (h : connect a = .ok conn) :
    connectLoop connect delay a (m + 1) last_exc = (.ok conn, []) := by
  simp only [connectLoop, h]

/-- One-step unfolding: a failing final attempt raises the caught error with
no further sleep. -/
theorem connectLoop_step_fail_last {C : Type} (connect : Nat → Except String C)
    (delay a : Nat) (last_exc exc : String)
    (h : connect a = .error exc) :
    connectLoop connect delay a 1 last_exc = (.error (.operationalError exc), []) := by
  simp only [connectLoop, h]
  rfl

/-- One-step unfolding: a failing non-final attempt sleeps `delay` and keeps
retrying with the caught error as `last_exc`. -/
theorem connectLoop_step_fail {C : Type} (connect : Nat → Except String C)
    (delay a m : Nat) (last_exc exc : String)
    (h : connect a = .error exc) (hm : m ≠ 0) :
    connectLoop connect delay a (m + 1) last_exc =
      ((connectLoop connect delay (a + 1) m exc).1,
        delay :: (connectLoop connect delay (a + 1) m exc).2) := by
  simp only [connectLoop, h]
  rw [if_neg hm]

/-- All `n` attempts starting at `a` fail: the loop raises the error of the
last attempt and sleeps `delay` exactly `n - 1` times. -/
theorem connectLoop_all_fail {C : Type} (connect : Nat → Except String C)
    (err : Nat → String) (delay : Nat) :
    ∀ (n a : Nat) (last_exc : String), 0 < n →
      (∀ i, i < n → connect (a + i) = .error (err (a + i))) →
      connectLoop connect delay a n last_exc =
        (.error (.operationalError (err (a + (n - 1)))), List.replicate (n - 1) delay) := by
  intro n
  induction n with
  | zero => intro a last_exc h; exact absurd h (by simp)
  | succ m ih =>
    intro a last_exc _ hfail
    have h0 : connect a = .error (err a) := by
      have := hfail 0 (Nat.succ_pos m)
      simpa using this
    cases m with
    | zero =>
      rw [connectLoop_step_fail_last connect delay a last_exc (err a) h0]
      simp
    | succ k =>
      have hrec := ih (a + 1) (err a) (Nat.succ_pos k) (by
        intro i hi
        have := hfail (i + 1) (by omega)
        have harg : a + (i + 1) = a + 1 + i := by omega
        rwa [harg] at this)
      rw [connectLoop_step_fail connect delay a (k + 1) last_exc (err a) h0
        (Nat.succ_ne_zero k)]
      rw [hrec]
      have h1 : a + 1 + (k + 1 - 1) = a + (k + 1 + 1 - 1) := by omega
      rw [h1]
      have h2 : List.replicate (k + 1 + 1 - 1) delay =
          delay :: List.replicate (k + 1 - 1) delay := by
        simp [List.replicate]
      rw [h2]

/-- The first `k` attempts starting at `a` fail and attempt `a + k` succeeds:
the loop returns that connection after sleeping `delay` exactly `k` times. -/
theorem connectLoop_first_success {C : Type} (connect : Nat → Except String C)
    (err : Nat → String) (delay : Nat) :
    ∀ (k n a : Nat) (last_exc : String) (conn : C), k < n →
      connect (a + k) = .ok conn →
      (∀ i, i < k → connect (a + i) = .error (err (a + i))) →
      connectLoop connect delay a n last_exc = (.ok conn, List.replicate k delay) := by
  intro k
  induction k with
  | zero =>
    intro n a last_exc conn hk hok _
    cases n with
    | zero => exact absurd hk (by simp)
    | succ m =>
      have h0 : connect a = .ok conn := by simpa using hok
      rw [connectLoop_step_ok connect delay a m last_exc conn h0]
      rfl
  | succ j ih =>
    intro n a last_exc conn hk hok hfail
    cases n with
    | zero => exact absurd hk (by simp)
    | succ m =>
      have h0 : connect a = .error (err a) := by
        have := hfail 0 (Nat.succ_pos j)
        simpa using this
      have hm : m ≠ 0 := by omega
      have hrec := ih m (a + 1) (err a) conn (by omega)
        (by
          have harg : a + (j + 1) = a + 1 + j := by omega
          rwa [harg] at hok)
        (by
          intro i hi
          have := hfail (i + 1) (by omega)
          have harg : a + (i + 1) = a + 1 + i := by omega
          rwa [harg] at this)
      obtain ⟨m', rfl⟩ : ∃ m', m = m' + 1 := ⟨m - 1, by omega⟩
      rw [connectLoop_step_fail connect delay a (m' + 1) last_exc (err a) h0 hm]
      rw [hrec]
      simp [List.replicate]

/-! ## Theorems: C9 and C3 -/

/-- C9: the flash severity class rendered by `GET /` is always one of
`success` and `error`, and any other supplied `type` query value is replaced
by `success` before rendering. -/
theorem flash_type_whitelist (query_type : Option String) :
    (flash_type_of query_type = "success" ∨ flash_type_of query_type = "error") ∧
    (∀ s : String, query_type = some s → s ≠ "success" → s ≠ "error" →
      flash_type_of query_type = "success") := by
  constructor
  · by_cases h : (query_type.getD "success") = "success" ∨ (query_type.getD "success") = "error"
    · simp only [flash_type_of, if_pos h]
      exact h
    · left
      simp only [flash_type_of, if_neg h]
  · intro s hs h1 h2
    subst hs
    simp only [flash_type_of, Option.getD_some]
    rw [if_neg]
    simp [h1, h2]

/-- Witness for `flash_type_whitelist` at a concrete injected value. -/
theorem flash_type_whitelist_witness :
    flash_type_of (some "<script>") = "success" :=
  (flash_type_whitelist (some "<script>")).2 "<script>" rfl (by decide) (by decide)

/-- C3: the `get_db` session scope commits on normal completion, rolls back
and re-raises the original exception unchanged when the body (or the commit)
raises, and closes the connection exactly once, as the last operation, on
every exit path. -/
theorem get_db_session_scope {E A : Type} (body : Except E A)
    (commitResult : Except E Unit) :
    ((get_db body commitResult).2.count .close = 1 ∧
      (get_db body commitResult).2.getLast? = some .close) ∧
    (∀ a : A, body = .ok a → commitResult = .ok () →
      get_db body commitResult = (.ok a, [.commit, .close])) ∧
    (∀ e : E, body = .error e →
      get_db body commitResult = (.error e, [.rollback, .close])) ∧
    (∀ (a : A) (e : E), body = .ok a → commitResult = .error e →
      get_db body commitResult = (.error e, [.commit, .rollback, .close])) := by
  refine ⟨?_, ?_, ?_, ?_⟩
  · cases body with
    | ok a =>
      cases commitResult with
      | ok u => exact ⟨rfl, rfl⟩
      | error e => exact ⟨rfl, rfl⟩
    | error e => exact ⟨rfl, rfl⟩
  · rintro a rfl h
    cases commitResult with
    | ok u => rfl
    | error e => exact absurd h (by simp)
  · rintro e rfl
    rfl
  · rintro a e rfl rfl
    rfl

/-- Witness for `get_db_session_scope`: a successful unit of work is
committed and the connection closed. -/
theorem get_db_session_scope_witness :
    get_db (Except.ok 1 : Except Nat Nat) (Except.ok ()) =
      (Except.ok 1, [ConnOp.commit, ConnOp.close]) :=
  (get_db_session_scope (Except.ok 1 : Except Nat Nat) (Except.ok ())).2.1 1 rfl rfl

/-- C2 (code bug): on the input URI `postgresql://h/db?sslmode=a&sslmode=b`
(two adjacent `sslmode` parameters) the non-overlapping regex substitution
removes only the first one, so the final descriptor carries `sslmode=b` in
addition to the appended `sslmode=require` — two `sslmode` parameters, where
the claim (and the code's own comment) require exactly one. -/
theorem build_database_url_duplicate_sslmode :
    _build_database_url (some "postgresql://h/db?sslmode=a&sslmode=b")
        none none none none none =
      "postgresql://h/db?sslmode=b&sslmode=require" ∧
    countSslmodeParams "postgresql://h/db?sslmode=b&sslmode=require".toList = 2 := by
  exact ⟨rfl, rfl⟩

/-- C4 (amended): `_connect_with_retry` with the default `retries=5`,
`delay=3` makes at most 5 attempts, sleeping 3 time-units between consecutive
attempts and never after the final one; it returns the connection of the
first successful attempt, and when all 5 attempts fail it raises the last
underlying `OperationalError` itself. -/
theorem connect_with_retry_spec {C : Type} (connect : Nat → Except String C)
    (err : Nat → String) :
    ((∀ i, i < 5 → connect i = .error (err i)) →
      _connect_with_retry connect 5 3 =
        (.error (.operationalError (err 4)), [3, 3, 3, 3])) ∧
    (∀ (k : Nat) (conn : C), k < 5 → connect k = .ok conn →
      (∀ i, i < k → connect i = .error (err i)) →
      _connect_with_retry connect 5 3 = (.ok conn, List.replicate k 3)) := by
  constructor
  · intro hfail
    have h := connectLoop_all_fail connect err 3 5 0 "Could not connect to database"
      (by omega) (by intro i hi; simpa using hfail i hi)
    have h4 : (0 : Nat) + (5 - 1) = 4 := by norm_num
    rw [h4] at h
    have hrep : List.replicate (5 - 1) 3 = ([3, 3, 3, 3] : List Nat) := by decide
    rw [hrep] at h
    exact h
  · intro k conn hk hok hfail
    exact connectLoop_first_success connect err 3 k 5 0 "Could not connect to database"
      conn hk (by simpa using hok) (by intro i hi; simpa using hfail i hi)

/-- Witness for `connect_with_retry_spec`: with an oracle that always fails,
all five attempts fail and the raised error is the last `OperationalError`
after four sleeps of 3 time-units. -/
theorem connect_with_retry_spec_witness :
    _connect_with_retry alwaysFailConnect 5 3 =
      (Except.error (PyExc.operationalError "boom"), [3, 3, 3, 3]) :=
  (connect_with_retry_spec alwaysFailConnect (fun _ => "boom")).1 (fun _ _ => rfl)

/-- C4 counterexample: when every attempt fails, `_connect_with_retry`
raises the last underlying `OperationalError` itself; the raised exception is
not a `ConnectionError` wrapper, refuting the claim as stated. -/
theorem connect_with_retry_raises_operational :
    (_connect_with_retry alwaysFailConnect 5 3).1 =
      Except.error (PyExc.operationalError "boom") ∧
    PyExc.isConnectionError (PyExc.operationalError "boom") = false := by
  exact ⟨rfl, rfl⟩


set_option maxRecDepth 100000

/-- C1 (code bug): for the stored name `a" onmouseover="alert(1)` the listing
page carries the name inside the inline-edit `onclick` attribute with its
double quotes intact (the second `replace` of the "JS-safe" step maps `"` to
itself), so the raw quotes terminate the attribute; HTML-escaping the name,
as the claim requires, would have produced `&quot;` and no raw quote at
all. -/
theorem build_table_onclick_unescaped :
    containsSub (build_table [xssItem])
      "onclick=\"showEditRow(7, \x27a\" onmouseover=\"alert(1)\x27, \x27d\x27)\"" = true ∧
    htmlEscape "a\" onmouseover=\"alert(1)" = "a&quot; onmouseover=&quot;alert(1)" ∧
    containsSub (htmlEscape "a\" onmouseover=\"alert(1)") "\"" = false := by
  refine ⟨by decide, by decide, by decide⟩

/-! ## Lemmas about the table operations -/

/-- `updateRow` never changes the id. -/
theorem updateRow_id (item_id : Nat) (n d : String) (r : Item) :
    (updateRow item_id n d r).id = r.id := by
  unfold updateRow
  split <;> rfl

/-- `updateRow` never changes the timestamp. -/
theorem updateRow_created_at (item_id : Nat) (n d : String) (r : Item) :
    (updateRow item_id n d r).created_at = r.created_at := by
  unfold updateRow
  split <;> rfl

/-- The row returned by `UPDATE ... RETURNING` is the updated image of the
row `SELECT` would have found. -/
theorem find?_updateRows (rows : List Item) (item_id : Nat) (n d : String) :
    (updateRows rows item_id n d).find? (fun r => r.id == item_id)
      = (rows.find? (fun r => r.id == item_id)).map (updateRow item_id n d) := by
  induction rows with
  | nil => rfl
  | cons r rs ih =>
    have hid : ((updateRow item_id n d r).id == item_id) = (r.id == item_id) := by
      rw [updateRow_id]
    cases h : (r.id == item_id) with
    | true =>
      simp only [updateRows, List.map_cons, List.find?_cons, hid, h]
      rfl
    | false =>
      simp only [updateRows, List.map_cons, List.find?_cons, hid, h]
      simpa [updateRows] using ih

/-- When no row has the id, `UPDATE` leaves the table unchanged. -/
theorem updateRows_not_found (rows : List Item) (item_id : Nat) (n d : String)
    (h : rows.find? (fun r => r.id == item_id) = none) :
    updateRows rows item_id n d = rows := by
  have hall : ∀ r ∈ rows, updateRow item_id n d r = r := by
    intro r hr
    have hne := List.find?_eq_none.mp h r hr
    simp only [beq_iff_eq] at hne
    simp [updateRow, hne]
  unfold updateRows
  rw [List.map_congr_left hall]
  simp

/-- Positionally, `UPDATE` maps each row through `updateRow`. -/
theorem getElem?_updateRows (rows : List Item) (item_id : Nat) (n d : String)
    (j : Nat) :
    (updateRows rows item_id n d)[j]? = (rows[j]?).map (updateRow item_id n d) := by
  simp [updateRows]

/-- After filtering out an id, no row with that id can be found. -/
theorem find?_filter_ne (rows : List Item) (item_id : Nat) :
    (rows.filter (fun r => r.id != item_id)).find? (fun r => r.id == item_id)
      = none := by
  rw [List.find?_eq_none]
  intro x hx
  have hne := (List.mem_filter.mp hx).2
  simp only [bne_iff_ne, ne_eq] at hne
  simp [hne]

/-- When no row has the id, `DELETE` leaves the table unchanged. -/
theorem filter_ne_not_found (rows : List Item) (item_id : Nat)
    (h : rows.find? (fun r => r.id == item_id) = none) :
    rows.filter (fun r => r.id != item_id) = rows := by
  apply List.filter_eq_self.mpr
  intro a ha
  have hne := List.find?_eq_none.mp h a ha
  simp only [beq_iff_eq] at hne
  simp [hne]

/-- With pairwise-distinct ids, deleting a present id removes exactly one
row. -/
theorem filter_ne_length (rows : List Item) (item_id : Nat) (it : Item)
    (hu : rows.Pairwise (fun a b => a.id ≠ b.id))
    (hf : rows.find? (fun r => r.id == item_id) = some it) :
    (rows.filter (fun r => r.id != item_id)).length + 1 = rows.length := by
  induction rows with
  | nil => simp at hf
  | cons r rs ih =>
    rw [List.pairwise_cons] at hu
    obtain ⟨hr, hrs⟩ := hu
    by_cases h : (r.id == item_id) = true
    · have hrid : r.id = item_id := by simpa using h
      have hall : rs.filter (fun x => x.id != item_id) = rs := by
        apply List.filter_eq_self.mpr
        intro a ha
        have := hr a ha
        simp only [bne_iff_ne, ne_eq, decide_eq_true_eq]
        omega
      have hhead : (r.id != item_id) = false := by simp [hrid]
      simp [List.filter_cons, hhead, hall]
    · have hfid : rs.find? (fun x => x.id == item_id) = some it := by
        rw [List.find?_cons] at hf
        cases hcond : (r.id == item_id) with
        | true => exact absurd hcond h
        | false => rwa [hcond] at hf
      have hhead : (r.id != item_id) = true := by
        simp only [bne_iff_ne, ne_eq, decide_eq_true_eq]
        simpa using h
      simp only [List.filter_cons, hhead, if_true, List.length_cons]
      have := ih hrs hfid
      omega

/-- Appending a row whose id is fresh for the table makes it the unique
`SELECT` result for that id. -/
theorem find?_append_fresh (rows : List Item) (it : Item)
    (h : ∀ r ∈ rows, r.id ≠ it.id) :
    (rows ++ [it]).find? (fun r => r.id == it.id) = some it := by
  induction rows with
  | nil => simp [List.find?]
  | cons r rs ih =>
    have hr : (r.id == it.id) = false := by
      simp only [beq_eq_false_iff_ne, ne_eq]
      exact h r (by simp)
    rw [List.cons_append, List.find?_cons, hr]
    exact ih (fun x hx => h x (by simp [hx]))

/-- C5: a create request whose name is missing or blank after trimming is
rejected — UI: redirect with an error flash; API: 400 — before any store
operation, so the table (and its row count) is unchanged. -/
theorem create_blank_name_rejected (db : Db) (form : FormData) (body : FormData)
    (now : String) :
    (pyStrip (form.name.getD "") = "" →
      ui_create_item db form now = (.redirectError "Item name is required.", db)) ∧
    (create_item_api db none now
      = (.errorResp 400 "Field \x27name\x27 is required", db)) ∧
    (body.name = none →
      create_item_api db (some body) now
        = (.errorResp 400 "Field \x27name\x27 is required", db)) ∧
    (∀ n, body.name = some n → pyStrip n = "" →
      create_item_api db (some body) now
        = (.errorResp 400 "Field \x27name\x27 must not be blank", db)) := by
  refine ⟨?_, rfl, ?_, ?_⟩
  · intro h
    simp [ui_create_item, h]
  · intro h
    simp [create_item_api, FormData.isFalsy, h]
  · intro n hn h
    simp [create_item_api, FormData.isFalsy, hn, h]

/-- Witness for `create_blank_name_rejected`: a whitespace-only name is
rejected by both handlers with the table untouched. -/
theorem create_blank_name_rejected_witness :
    ui_create_item ⟨1, []⟩ ⟨some "   ", some "demo"⟩ "ts"
      = (.redirectError "Item name is required.", ⟨1, []⟩) ∧
    create_item_api ⟨1, []⟩ (some ⟨some " ", none⟩) "ts"
      = (.errorResp 400 "Field \x27name\x27 must not be blank", ⟨1, []⟩) :=
  ⟨(create_blank_name_rejected ⟨1, []⟩ ⟨some "   ", some "demo"⟩ ⟨some " ", none⟩
      "ts").1 (by decide),
   (create_blank_name_rejected ⟨1, []⟩ ⟨some "   ", some "demo"⟩ ⟨some " ", none⟩
      "ts").2.2.2 " " rfl (by decide)⟩

/-- C6: updating an existing id overwrites only that row's name and
description (its id and created_at, every other row, and the row count are
unchanged, positionally); updating a non-existent id yields 404 (API) / an
error flash (UI) and leaves the table entirely unchanged. -/
theorem update_overwrites_only_name_description (db : Db) (item_id : Nat)
    (n d : String) (hn : pyStrip n ≠ "") :
    (∀ it, sqlSelectById db item_id = some it →
      update_item_api db item_id (some ⟨some n, some d⟩)
        = (.itemResp 200 { it with name := pyStrip n, description := pyStrip d },
           ⟨db.nextId, updateRows db.rows item_id (pyStrip n) (pyStrip d)⟩) ∧
      ui_edit_item db item_id ⟨some n, some d⟩
        = (.redirectSuccess (msgUiUpdated item_id),
           ⟨db.nextId, updateRows db.rows item_id (pyStrip n) (pyStrip d)⟩)) ∧
    ((updateRows db.rows item_id (pyStrip n) (pyStrip d)).length
      = db.rows.length) ∧
    (∀ (j : Nat) (r : Item), db.rows[j]? = some r →
      (r.id = item_id →
        (updateRows db.rows item_id (pyStrip n) (pyStrip d))[j]?
          = some { r with name := pyStrip n, description := pyStrip d }) ∧
      (r.id ≠ item_id →
        (updateRows db.rows item_id (pyStrip n) (pyStrip d))[j]? = some r)) ∧
    (sqlSelectById db item_id = none →
      update_item_api db item_id (some ⟨some n, some d⟩)
        = (.errorResp 404 (msgApiNotFound item_id), db) ∧
      ui_edit_item db item_id ⟨some n, some d⟩
        = (.redirectError (msgUiNotFound item_id), db)) := by
  refine ⟨?_, ?_, ?_, ?_⟩
  · intro it hit
    have hit' : db.rows.find? (fun r => r.id == item_id) = some it := hit
    have hid : it.id = item_id := by
      have := List.find?_some hit'
      simpa using this
    have hupd : (updateRows db.rows item_id (pyStrip n) (pyStrip d)).find?
        (fun r => r.id == item_id)
          = some { it with name := pyStrip n, description := pyStrip d } := by
      rw [find?_updateRows, hit']
      simp [updateRow, hid]
    constructor
    · simp [update_item_api, FormData.isFalsy, hn, sqlUpdate, hupd]
    · simp [ui_edit_item, hn, sqlUpdate, hupd]
  · simp [updateRows]
  · intro j r hj
    constructor
    · intro hr
      rw [getElem?_updateRows, hj]
      simp [updateRow, hr]
    · intro hr
      rw [getElem?_updateRows, hj]
      simp [updateRow, hr]
  · intro hnone
    have hnone' : db.rows.find? (fun r => r.id == item_id) = none := hnone
    have hrows : updateRows db.rows item_id (pyStrip n) (pyStrip d) = db.rows :=
      updateRows_not_found db.rows item_id (pyStrip n) (pyStrip d) hnone'
    constructor
    · simp [update_item_api, FormData.isFalsy, hn, sqlUpdate, hrows, hnone']
    · simp [ui_edit_item, hn, sqlUpdate, hrows, hnone']

/-- Witness for `update_overwrites_only_name_description` on a one-row
table. -/
theorem update_overwrites_witness :
    update_item_api ⟨2, [⟨1, "old", "prev", "t0"⟩]⟩ 1 (some ⟨some "x", some "y"⟩)
      = (.itemResp 200 ⟨1, "x", "y", "t0"⟩,
         ⟨2, updateRows [⟨1, "old", "prev", "t0"⟩] 1 (pyStrip "x") (pyStrip "y")⟩) :=
  ((update_overwrites_only_name_description ⟨2, [⟨1, "old", "prev", "t0"⟩]⟩ 1
      "x" "y" (by decide)).1 ⟨1, "old", "prev", "t0"⟩ rfl).1

/-- C7 counterexample: deleting the existing id 1 (row named `widget`)
through the API returns the confirmation `Item 1 deleted`, which carries the
id but not the deleted item's name, refuting the claim that the operation
returns the deleted item's name. -/
theorem delete_api_returns_no_name :
    delete_item_api ⟨2, [⟨1, "widget", "d", "t0"⟩]⟩ 1
      = (.messageResp 200 "Item 1 deleted", ⟨2, []⟩) ∧
    containsSub "Item 1 deleted" "widget" = false := by
  exact ⟨rfl, by decide⟩

/-- C7 (amended): with pairwise-distinct ids, deleting an existing id
removes exactly that row — the UI flash reports the deleted item's name,
while the API returns a 200 confirmation naming only the id; deleting an
absent id (including a second delete of the same id) yields 404 (API) / an
error flash (UI) and removes nothing. -/
theorem delete_removes_exactly_row (db : Db) (item_id : Nat)
    (hu : db.rows.Pairwise (fun a b => a.id ≠ b.id)) :
    (∀ it, sqlSelectById db item_id = some it →
      ui_delete_item db item_id
        = (.redirectSuccess (msgUiDeleted it.name),
           ⟨db.nextId, db.rows.filter (fun r => r.id != item_id)⟩) ∧
      delete_item_api db item_id
        = (.messageResp 200 (msgApiDeleted item_id),
           ⟨db.nextId, db.rows.filter (fun r => r.id != item_id)⟩) ∧
      ((db.rows.filter (fun r => r.id != item_id)).length + 1 = db.rows.length) ∧
      (∀ r : Item, r ∈ db.rows.filter (fun r => r.id != item_id) ↔
        r ∈ db.rows ∧ r.id ≠ item_id) ∧
      delete_item_api ⟨db.nextId, db.rows.filter (fun r => r.id != item_id)⟩ item_id
        = (.errorResp 404 (msgApiNotFound item_id),
           ⟨db.nextId, db.rows.filter (fun r => r.id != item_id)⟩)) ∧
    (sqlSelectById db item_id = none →
      ui_delete_item db item_id = (.redirectError (msgUiNotFound item_id), db) ∧
      delete_item_api db item_id
        = (.errorResp 404 (msgApiNotFound item_id), db)) := by
  constructor
  · intro it hit
    have hit' : db.rows.find? (fun r => r.id == item_id) = some it := hit
    refine ⟨?_, ?_, ?_, ?_, ?_⟩
    · simp [ui_delete_item, sqlDelete, hit']
    · simp [delete_item_api, sqlDelete, hit']
    · exact filter_ne_length db.rows item_id it hu hit'
    · intro r
      rw [List.mem_filter]
      simp
    · have hgone := find?_filter_ne db.rows item_id
      have hsame : (db.rows.filter (fun r => r.id != item_id)).filter
          (fun r => r.id != item_id) = db.rows.filter (fun r => r.id != item_id) :=
        filter_ne_not_found (db.rows.filter (fun r => r.id != item_id)) item_id hgone
      simp [delete_item_api, sqlDelete, hgone, hsame]
  · intro hnone
    have hnone' : db.rows.find? (fun r => r.id == item_id) = none := hnone
    have hsame : db.rows.filter (fun r => r.id != item_id) = db.rows :=
      filter_ne_not_found db.rows item_id hnone'
    constructor
    · simp [ui_delete_item, sqlDelete, hnone', hsame]
    · simp [delete_item_api, sqlDelete, hnone', hsame]

/-- Witness for `delete_removes_exactly_row` on a one-row table: the UI
delete flashes the deleted name and empties the table. -/
theorem delete_removes_exactly_row_witness :
    ui_delete_item ⟨2, [⟨1, "widget", "d", "t0"⟩]⟩ 1
      = (.redirectSuccess (msgUiDeleted "widget"),
         ⟨2, [⟨1, "widget", "d", "t0"⟩].filter (fun r => r.id != 1)⟩) :=
  ((delete_removes_exactly_row ⟨2, [⟨1, "widget", "d", "t0"⟩]⟩ 1
      (by simp)).1 ⟨1, "widget", "d", "t0"⟩ rfl).1

/-- C8: creating an item through `POST /items` and then fetching its
assigned id through `GET /items/{id}` (with the serial counter fresh for the
table) returns exactly the created item: same id, same name, same
description. -/
theorem create_then_get_roundtrip (db : Db) (name description now : String)
    (hfresh : ∀ r ∈ db.rows, r.id < db.nextId) (hname : pyStrip name ≠ "") :
    create_item_api db (some ⟨some name, some description⟩) now
      = (.itemResp 201 ⟨db.nextId, pyStrip name, pyStrip description, now⟩,
         ⟨db.nextId + 1,
          db.rows ++ [⟨db.nextId, pyStrip name, pyStrip description, now⟩]⟩) ∧
    get_item_api
        ⟨db.nextId + 1,
         db.rows ++ [⟨db.nextId, pyStrip name, pyStrip description, now⟩]⟩
        db.nextId
      = (.itemResp 200 ⟨db.nextId, pyStrip name, pyStrip description, now⟩,
         ⟨db.nextId + 1,
          db.rows ++ [⟨db.nextId, pyStrip name, pyStrip description, now⟩]⟩) := by
  constructor
  · simp [create_item_api, FormData.isFalsy, hname, sqlInsert]
  · have hfind := find?_append_fresh db.rows
      ⟨db.nextId, pyStrip name, pyStrip description, now⟩
      (fun r hr => Nat.ne_of_lt (hfresh r hr))
    simp [get_item_api, sqlSelectById, hfind]

/-- Witness for `create_then_get_roundtrip` on an empty table. -/
theorem create_then_get_roundtrip_witness :
    create_item_api ⟨1, []⟩ (some ⟨some "foo", some "bar"⟩) "t1"
      = (.itemResp 201 ⟨1, "foo", "bar", "t1"⟩,
         ⟨2, [⟨1, "foo", "bar", "t1"⟩]⟩) ∧
    get_item_api ⟨2, [⟨1, "foo", "bar", "t1"⟩]⟩ 1
      = (.itemResp 200 ⟨1, "foo", "bar", "t1"⟩, ⟨2, [⟨1, "foo", "bar", "t1"⟩]⟩) :=
  create_then_get_roundtrip ⟨1, []⟩ "foo" "bar" "t1" (by simp) (by decide)

/-- C10: a `PUT /items/{id}` whose JSON body omits `description` (with a
valid name and an existing id) overwrites the stored description with the
empty string rather than preserving it. -/
theorem update_omitted_description_empties (db : Db) (item_id : Nat)
    (n : String) (hn : pyStrip n ≠ "") :
    ∀ it, sqlSelectById db item_id = some it →
      update_item_api db item_id (some ⟨some n, none⟩)
        = (.itemResp 200 { it with name := pyStrip n, description := "" },
           ⟨db.nextId, updateRows db.rows item_id (pyStrip n) ""⟩) := by
  intro it hit
  have hit' : db.rows.find? (fun r => r.id == item_id) = some it := hit
  have hid : it.id = item_id := by
    have := List.find?_some hit'
    simpa using this
  have hupd : (updateRows db.rows item_id (pyStrip n) "").find?
      (fun r => r.id == item_id)
        = some { it with name := pyStrip n, description := "" } := by
    rw [find?_updateRows, hit']
    simp [updateRow, hid]
  have hempty : pyStrip "" = "" := rfl
  simp [update_item_api, FormData.isFalsy, hn, sqlUpdate, hempty, hupd]

/-- Witness for `update_omitted_description_empties`: a previously non-empty
description is replaced by the empty string. -/
theorem update_omitted_description_witness :
    update_item_api ⟨2, [⟨1, "old", "keep me", "t0"⟩]⟩ 1 (some ⟨some "x", none⟩)
      = (.itemResp 200 ⟨1, "x", "", "t0"⟩,
         ⟨2, updateRows [⟨1, "old", "keep me", "t0"⟩] 1 (pyStrip "x") ""⟩) :=
  update_omitted_description_empties ⟨2, [⟨1, "old", "keep me", "t0"⟩]⟩ 1 "x"
    (by decide) ⟨1, "old", "keep me", "t0"⟩ rfl

end HeteroDemo
